import Mathlib

/-!
Verification of the lazyfile interactive state machine.

This development shallowly embeds the core of the `lazyfile` TUI client:
the session state (`App`, from `src/app/state.rs`), the keyboard dispatcher
(`Handler`, from `src/app/handler.rs`), the modal widgets
(`src/ui/widgets/confirm_modal.rs`, `src/ui/widgets/create_remote.rs`),
the protocol-client response handling (`src/rclone/client.rs`,
`src/rclone/types.rs`) and the event loop (`src/main.rs`).

The rclone daemon is modelled as an oracle (`RcloneClient`): a record of
response functions, one per operation, each returning
`Except LazyFileError α` exactly as the Rust client methods do. Handlers
take the oracle as a parameter and return the updated state together with
an optional propagated error, mirroring `&mut App` plus `Result<()>`:
when the Rust code hits a `?`, all mutations already applied to `app`
persist, so the model returns the partially-updated state alongside the
error.
-/

namespace LazyFile

/-- Key codes consumed by the handler (`crossterm::event::KeyCode`);
only the variants the dispatcher inspects, plus a catch-all. -/
inductive KeyCode where
  | Char (c : Char)
  | Esc
  | Tab
  | BackTab
  | Enter
  | Backspace
  | Down
  | Up
  | Left
  | Right
  | Other
  deriving DecidableEq, Repr

/-- `LazyFileError` from `src/error.rs`; payloads reduced to the message
strings the variants carry or render. -/
inductive LazyFileError where
  | Io (s : String)
  | RcloneApi (s : String)
  | Http (s : String)
  | Json (s : String)
  | Terminal (s : String)
  | Config (s : String)
  | TracingFilter (s : String)
  | Other (s : String)
  deriving DecidableEq, Repr

/-- The `Display` rendering of `LazyFileError` (the `#[error("...")]`
attributes in `src/error.rs`), used by `format!("Error: {}", e)`. -/
def LazyFileError.msg : LazyFileError → String
  | .Io s => "IO error: " ++ s
  | .RcloneApi s => "Rclone API error: " ++ s
  | .Http s => "HTTP error: " ++ s
  | .Json s => "JSON error: " ++ s
  | .Terminal s => "Terminal error: " ++ s
  | .Config s => "Configuration error: " ++ s
  | .TracingFilter s => "Tracing filter error: " ++ s
  | .Other s => s

/-- True exactly on the `RcloneApi` variant: the error kind of a
daemon-reported failure. -/
def LazyFileError.isRcloneApi : LazyFileError → Bool
  | .RcloneApi _ => true
  | _ => false

/-- `FileItem` from `src/rclone/types.rs`. -/
structure FileItem where
  name : String
  size : Int
  mod_time : String
  is_dir : Bool
  deriving DecidableEq, Repr

/-- `NavigationItem` from `src/rclone/types.rs` (single variant). -/
inductive NavigationItem where
  | File (item : FileItem)
  deriving DecidableEq, Repr

/-- `NavigationItem::name`. -/
def NavigationItem.name : NavigationItem → String
  | .File item => item.name

/-- `NavigationItem::is_dir`. -/
def NavigationItem.is_dir : NavigationItem → Bool
  | .File item => item.is_dir

/-- `ListFilesResponse` from `src/rclone/types.rs`. -/
structure ListFilesResponse where
  list : Option (List FileItem)
  deriving DecidableEq, Repr

/-- `ConfirmChoice` from `src/ui/widgets/confirm_modal.rs`. -/
inductive ConfirmChoice where
  | Yes
  | No
  deriving DecidableEq, Repr

/-- `ConfirmModal` from `src/ui/widgets/confirm_modal.rs`. -/
structure ConfirmModal where
  title : String
  message : String
  selected : ConfirmChoice
  deriving DecidableEq, Repr

/-- `ConfirmModal::new` — choice defaults to `No`. -/
def ConfirmModal.new (title message : String) : ConfirmModal :=
  { title := title, message := message, selected := .No }

/-- `ConfirmModal::toggle`. -/
def ConfirmModal.toggle (m : ConfirmModal) : ConfirmModal :=
  { m with selected := match m.selected with | .Yes => .No | .No => .Yes }

/-- `ConfirmModal::is_confirmed`. -/
def ConfirmModal.is_confirmed (m : ConfirmModal) : Bool :=
  m.selected = .Yes

/-- `CreateRemoteMode` from `src/ui/widgets/create_remote.rs`. -/
inductive CreateRemoteMode where
  | Create
  | Edit
  deriving DecidableEq, Repr

/-- `RemoteField` from `src/ui/widgets/create_remote.rs`. -/
inductive RemoteField where
  | Name
  | Type
  | Path
  deriving DecidableEq, Repr

/-- `CreateRemoteModal` from `src/ui/widgets/create_remote.rs`. -/
structure CreateRemoteModal where
  mode : CreateRemoteMode
  name : String
  remote_type : String
  path : String
  focus_field : RemoteField
  error : Option String
  deriving DecidableEq, Repr

/-- `CreateRemoteModal::new` — type defaults to `"local"`. -/
def CreateRemoteModal.new (mode : CreateRemoteMode) : CreateRemoteModal :=
  { mode := mode, name := "", remote_type := "local", path := "",
    focus_field := .Name, error := none }

/-- `CreateRemoteModal::with_name`. -/
def CreateRemoteModal.with_name (m : CreateRemoteModal) (name : String) :
    CreateRemoteModal :=
  { m with name := name }

/-- `CreateRemoteModal::with_type`. -/
def CreateRemoteModal.with_type (m : CreateRemoteModal) (t : String) :
    CreateRemoteModal :=
  { m with remote_type := t }

/-- `CreateRemoteModal::next_field` — Name → Type → Path → Name. -/
def CreateRemoteModal.next_field (m : CreateRemoteModal) : CreateRemoteModal :=
  { m with focus_field :=
      match m.focus_field with
      | .Name => .Type
      | .Type => .Path
      | .Path => .Name }

/-- `CreateRemoteModal::prev_field`. -/
def CreateRemoteModal.prev_field (m : CreateRemoteModal) : CreateRemoteModal :=
  { m with focus_field :=
      match m.focus_field with
      | .Name => .Path
      | .Type => .Name
      | .Path => .Type }

/-- `CreateRemoteModal::input_char`. -/
def CreateRemoteModal.input_char (m : CreateRemoteModal) (c : Char) :
    CreateRemoteModal :=
  match m.focus_field with
  | .Name => { m with name := m.name.push c }
  | .Type => { m with remote_type := m.remote_type.push c }
  | .Path => { m with path := m.path.push c }

/-- `CreateRemoteModal::backspace` — drops the last character of the
focused field. -/
def CreateRemoteModal.backspace (m : CreateRemoteModal) : CreateRemoteModal :=
  match m.focus_field with
  | .Name => { m with name := String.mk m.name.data.dropLast }
  | .Type => { m with remote_type := String.mk m.remote_type.data.dropLast }
  | .Path => { m with path := String.mk m.path.data.dropLast }

/-- `CreateRemoteModal::is_valid`. -/
def CreateRemoteModal.is_valid (m : CreateRemoteModal) : Bool :=
  ¬ m.name = "" ∧ ¬ m.remote_type = ""

/-- `Panel` from `src/app/state.rs`. -/
inductive Panel where
  | Remotes
  | Files
  deriving DecidableEq, Repr

/-- The daemon oracle standing for `RcloneClient` (`src/rclone/client.rs`):
one response function per operation, each returning exactly what the
corresponding Rust method returns. Parameter maps are association lists. -/
structure RcloneClient where
  listRemotesResp : Except LazyFileError (List String)
  listFilesResp : String → String → Except LazyFileError (List FileItem)
  createRemoteResp : String → String → List (String × String) →
    Except LazyFileError Unit
  updateRemoteResp : String → List (String × String) → Except LazyFileError Unit
  deleteRemoteResp : String → Except LazyFileError Unit

/-- `App` from `src/app/state.rs`, minus the `client` field (the oracle is
passed to the transition functions instead). -/
structure App where
  remotes : List String
  current_remote : Option String
  current_path : String
  files : List NavigationItem
  remotes_selected : Nat
  files_selected : Nat
  focused_panel : Panel
  running : Bool
  create_remote_modal : Option CreateRemoteModal
  confirm_modal : Option ConfirmModal
  pending_delete_remote : Option String
  deriving DecidableEq, Repr

/-- `App::new`. -/
def App.new : App :=
  { remotes := [], current_remote := none, current_path := "", files := [],
    remotes_selected := 0, files_selected := 0, focused_panel := .Remotes,
    running := true, create_remote_modal := none, confirm_modal := none,
    pending_delete_remote := none }

/-- `App::load_remotes`: one `list_remotes` call; on success replace the
remote list and reset the selection, on failure propagate, leaving the
state untouched. -/
def App.load_remotes (b : RcloneClient) (app : App) :
    App × Option LazyFileError :=
  match b.listRemotesResp with
  | .ok rs => ({ app with remotes := rs, remotes_selected := 0 }, none)
  | .error e => (app, some e)

/-- `App::load_files`: when a remote is current, one `list_files` call; on
success replace `files`. `files_selected` is reset after the `if let`
block, hence also in the no-remote case, but not on the early error
return. -/
def App.load_files (b : RcloneClient) (app : App) :
    App × Option LazyFileError :=
  match app.current_remote with
  | some remote =>
    match b.listFilesResp remote app.current_path with
    | .ok items =>
      ({ app with files := items.map NavigationItem.File,
                  files_selected := 0 }, none)
    | .error e => (app, some e)
  | none => ({ app with files_selected := 0 }, none)

/-- `App::navigate_down` — advance the focused panel's selection, guarded
by `len.saturating_sub(1)`. -/
def App.navigate_down (app : App) : App :=
  match app.focused_panel with
  | .Remotes =>
    if app.remotes_selected < app.remotes.length - 1 then
      { app with remotes_selected := app.remotes_selected + 1 }
    else app
  | .Files =>
    if app.files_selected < app.files.length - 1 then
      { app with files_selected := app.files_selected + 1 }
    else app

/-- `App::navigate_up` — retreat the focused panel's selection, guarded by
`> 0`. -/
def App.navigate_up (app : App) : App :=
  match app.focused_panel with
  | .Remotes =>
    if app.remotes_selected > 0 then
      { app with remotes_selected := app.remotes_selected - 1 }
    else app
  | .Files =>
    if app.files_selected > 0 then
      { app with files_selected := app.files_selected - 1 }
    else app

/-- `App::switch_panel`. -/
def App.switch_panel (app : App) : App :=
  { app with focused_panel :=
      match app.focused_panel with
      | .Remotes => .Files
      | .Files => .Remotes }

/-- `str::rfind(char)` on a character list: index of the last occurrence,
counting from `i` at the head. -/
def rfindAux (c : Char) : List Char → Nat → Option Nat
  | [], _ => none
  | x :: xs, i =>
    match rfindAux c xs (i + 1) with
    | some j => some j
    | none => if x = c then some i else none

/-- Index of the last occurrence of `c` in `l`, as `str::rfind` returns it
(character-level model of the byte index). -/
def rfind (c : Char) (l : List Char) : Option Nat := rfindAux c l 0

namespace Handler

/-- `Handler::handle_delete_remote`: only when the selection resolves to a
remote, capture it into `pending_delete_remote` and open the Confirm
modal. -/
def handle_delete_remote (app : App) : App :=
  match app.remotes[app.remotes_selected]? with
  | some remote =>
    { app with
        pending_delete_remote := some remote,
        confirm_modal := some (ConfirmModal.new "Delete Remote"
          ("Delete \x27" ++ remote ++ "\x27?")) }
  | none => app

/-- `Handler::handle_edit_remote`: only when the selection resolves to a
remote, open the Create/Edit modal in Edit mode pre-filled. -/
def handle_edit_remote (app : App) : App :=
  match app.remotes[app.remotes_selected]? with
  | some remote =>
    let modal := ((CreateRemoteModal.new .Edit).with_name remote).with_type "local"
    { app with create_remote_modal := some modal }
  | none => app

/-- `Handler::handle_enter`. In the Remotes branch `current_remote` and
`current_path` are assigned before `load_files` runs, and focus moves to
Files only after a successful load (the `?` exits first on failure). In
the Files branch the new path is written before the re-fetch. -/
def handle_enter (b : RcloneClient) (app : App) : App × Option LazyFileError :=
  match app.focused_panel with
  | .Remotes =>
    match app.remotes[app.remotes_selected]? with
    | some remote =>
      let app1 := { app with current_remote := some remote, current_path := "" }
      match App.load_files b app1 with
      | (app2, none) => ({ app2 with focused_panel := .Files }, none)
      | (app2, some e) => (app2, some e)
    | none => (app, none)
  | .Files =>
    match app.files[app.files_selected]? with
    | some item =>
      if item.is_dir then
        let newPath :=
          if app.current_path = "" then "/" ++ item.name
          else app.current_path ++ "/" ++ item.name
        App.load_files b { app with current_path := newPath }
      else (app, none)
    | none => (app, none)

/-- `Handler::handle_backspace`. With a non-empty path, truncate at the
last `/` (or clear when none exists) and re-fetch; with an empty path,
leave browsing. No effect on the Remotes panel. -/
def handle_backspace (b : RcloneClient) (app : App) :
    App × Option LazyFileError :=
  match app.focused_panel with
  | .Files =>
    if ¬ app.current_path = "" then
      let newPath : String :=
        match rfind '/' app.current_path.data with
        | some last_slash => String.mk (app.current_path.data.take last_slash)
        | none => ""
      App.load_files b { app with current_path := newPath }
    else
      ({ app with current_remote := none, focused_panel := .Remotes,
                  files := [] }, none)
  | .Remotes => (app, none)

/-- `Handler::handle_confirm_key`. On Enter with a confirmed choice the
pending target is `take`n (cleared) first; the two `?`s on the delete call
and the refresh exit before `confirm_modal = None` runs, so the modal only
closes when both calls succeed (or when the choice is No / no target). -/
def handle_confirm_key (b : RcloneClient) (app : App) (key : KeyCode) :
    App × Option LazyFileError :=
  match app.confirm_modal with
  | some modal =>
    match key with
    | .Esc =>
      ({ app with confirm_modal := none, pending_delete_remote := none }, none)
    | .Tab | .Right | .Left =>
      ({ app with confirm_modal := some modal.toggle }, none)
    | .Char c =>
      if c = 'y' ∨ c = 'n' then
        let confirmed := c = 'y'
        if confirmed ≠ modal.is_confirmed then
          ({ app with confirm_modal := some modal.toggle }, none)
        else (app, none)
      else (app, none)
    | .Enter =>
      if modal.is_confirmed then
        match app.pending_delete_remote with
        | some remote =>
          let app1 := { app with pending_delete_remote := none }
          match b.deleteRemoteResp remote with
          | .error e => (app1, some e)
          | .ok _ =>
            match App.load_remotes b app1 with
            | (app2, some e) => (app2, some e)
            | (app2, none) => ({ app2 with confirm_modal := none }, none)
        | none => ({ app with confirm_modal := none }, none)
      else ({ app with confirm_modal := none }, none)
    | _ => (app, none)
  | none => (app, none)

/-- `Handler::handle_modal_submit`: the modal is `take`n; an invalid form
or a failed create/update call puts it back with an error message set
(returning `Ok`), and only a successful call reaches `load_remotes`. -/
def handle_modal_submit (b : RcloneClient) (app : App) :
    App × Option LazyFileError :=
  match app.create_remote_modal with
  | some modal =>
    let app0 := { app with create_remote_modal := none }
    if ¬ modal.is_valid then
      let m := { modal with error := some "Name and Type are required" }
      ({ app0 with create_remote_modal := some m }, none)
    else
      let params : List (String × String) :=
        if ¬ modal.path = "" then [("path", modal.path)] else []
      match modal.mode with
      | .Create =>
        match b.createRemoteResp modal.name modal.remote_type params with
        | .error e =>
          let m := { modal with error := some ("Error: " ++ e.msg) }
          ({ app0 with create_remote_modal := some m }, none)
        | .ok _ => App.load_remotes b app0
      | .Edit =>
        match b.updateRemoteResp modal.name params with
        | .error e =>
          let m := { modal with error := some ("Error: " ++ e.msg) }
          ({ app0 with create_remote_modal := some m }, none)
        | .ok _ => App.load_remotes b app0
  | none => (app, none)

/-- `Handler::handle_modal_key`: key routing while the Create/Edit modal
is open. -/
def handle_modal_key (b : RcloneClient) (app : App) (key : KeyCode) :
    App × Option LazyFileError :=
  match app.create_remote_modal with
  | some modal =>
    match key with
    | .Esc => ({ app with create_remote_modal := none }, none)
    | .Tab => ({ app with create_remote_modal := some modal.next_field }, none)
    | .BackTab =>
      ({ app with create_remote_modal := some modal.prev_field }, none)
    | .Char c =>
      let m := { modal.input_char c with error := none }
      ({ app with create_remote_modal := some m }, none)
    | .Backspace =>
      let m := { modal.backspace with error := none }
      ({ app with create_remote_modal := some m }, none)
    | .Enter => handle_modal_submit b app
    | _ => (app, none)
  | none => (app, none)

/-- `Handler::handle_key`: modal precedence first, then the top-level
match. A guarded arm whose panel guard fails falls through to the
remaining arms, so `a`/`d`/`e` on the Files panel reach the wildcard. -/
def handle_key (b : RcloneClient) (app : App) (key : KeyCode) :
    App × Option LazyFileError :=
  if app.confirm_modal.isSome then handle_confirm_key b app key
  else if app.create_remote_modal.isSome then handle_modal_key b app key
  else
    match key with
    | .Char c =>
      if c = 'q' then ({ app with running := false }, none)
      else if c = 'a' ∧ app.focused_panel = .Remotes then
        ({ app with create_remote_modal := some (CreateRemoteModal.new .Create) },
          none)
      else if c = 'd' ∧ app.focused_panel = .Remotes then
        (handle_delete_remote app, none)
      else if c = 'e' ∧ app.focused_panel = .Remotes then
        (handle_edit_remote app, none)
      else if c = 'j' then (app.navigate_down, none)
      else if c = 'k' then (app.navigate_up, none)
      else (app, none)
    | .Down => (app.navigate_down, none)
    | .Up => (app.navigate_up, none)
    | .Tab => (app.switch_panel, none)
    | .Enter => handle_enter b app
    | .Backspace => handle_backspace b app
    | _ => (app, none)

end Handler

/-- `run_app` from `src/main.rs`, with the render step and the poll
abstracted into a list of arriving key events: while `running`, each event
is handed to `Handler::handle_key` under a `?`, so the first propagated
error returns from `run_app` (ending the loop) with the remaining events
unprocessed. -/
def run_app (b : RcloneClient) : App → List KeyCode → App × Option LazyFileError
  | app, [] => (app, none)
  | app, k :: ks =>
    if app.running then
      match Handler.handle_key b app k with
      | (a, some e) => (a, some e)
      | (a, none) => run_app b a ks
    else (app, none)

/-- JSON values, as `serde_json::Value` presents them to the response
decoding in `src/rclone/client.rs`. -/
inductive Json where
  | null
  | bool (b : Bool)
  | num (n : Int)
  | str (s : String)
  | arr (elems : List Json)
  | obj (fields : List (String × Json))

/-- The derived `Deserialize` for `FileItem` (`src/rclone/types.rs`): an
object whose `Name`/`Size`/`ModTime`/`IsDir` fields are all present with
the right types. -/
def decodeFileItem (j : Json) : Option FileItem :=
  match j with
  | .obj fields =>
    match fields.lookup "Name", fields.lookup "Size",
          fields.lookup "ModTime", fields.lookup "IsDir" with
    | some (.str n), some (.num s), some (.str mt), some (.bool d) =>
      some { name := n, size := s, mod_time := mt, is_dir := d }
    | _, _, _, _ => none
  | _ => none

/-- Decode every element of a JSON array as a `FileItem`; any failure
fails the whole array. -/
def decodeFileItems (l : List Json) : Option (List FileItem) :=
  l.mapM decodeFileItem

/-- The derived `Deserialize` for `ListFilesResponse`: an object whose
optional `list` field is absent or `null` (→ `None`) or an array of
`FileItem`s; a present field of any other shape is a deserialization
failure. -/
def decodeListFilesResponse (j : Json) : Option ListFilesResponse :=
  match j with
  | .obj fields =>
    match fields.lookup "list" with
    | none => some { list := none }
    | some .null => some { list := none }
    | some (.arr xs) => (decodeFileItems xs).map fun items => { list := some items }
    | some _ => none
  | _ => none

/-- The response handling of `RcloneClient::list_files` after the HTTP
round trip: `status_success`/`status` are the response status,
`body` is the outcome of `serde_json::from_str` on the body text
(`.error msg` being a parse failure, which the `?` turns into
`LazyFileError::Json`). A daemon-reported failure (non-success status)
becomes `RcloneApi`; a well-formed response yields
`list.unwrap_or_default()`; a body that fails to deserialize as
`ListFilesResponse` falls through to `Ok(Vec::new())`. -/
def list_files_parse (status_success : Bool) (status : String)
    (body : Except String Json) : Except LazyFileError (List FileItem) :=
  if ¬ status_success then
    .error (.RcloneApi ("Failed to list files: " ++ status))
  else
    match body with
    | .error e => .error (.Json e)
    | .ok j =>
      match decodeListFilesResponse j with
      | some list_response => .ok (list_response.list.getD [])
      | none => .ok []

/-! ### Concrete fixtures used by witnesses and counterexamples -/

/-- A directory entry. -/
def fileDocs : FileItem :=
  { name := "docs", size := 0, mod_time := "2024-01-01T00:00:00Z", is_dir := true }

/-- A plain-file entry. -/
def fileTxt : FileItem :=
  { name := "a.txt", size := 3, mod_time := "2024-01-01T00:00:00Z", is_dir := false }

/-- A daemon for which every call succeeds. -/
def okClient : RcloneClient :=
  { listRemotesResp := .ok ["gdrive", "s3"],
    listFilesResp := fun _ _ => .ok [fileDocs, fileTxt],
    createRemoteResp := fun _ _ _ => .ok (),
    updateRemoteResp := fun _ _ => .ok (),
    deleteRemoteResp := fun _ => .ok () }

/-- A daemon for which every call fails with an `RcloneApi` error. -/
def failClient : RcloneClient :=
  { listRemotesResp := .error (.RcloneApi "boom"),
    listFilesResp := fun _ _ => .error (.RcloneApi "boom"),
    createRemoteResp := fun _ _ _ => .error (.RcloneApi "boom"),
    updateRemoteResp := fun _ _ => .error (.RcloneApi "boom"),
    deleteRemoteResp := fun _ => .error (.RcloneApi "boom") }

/-- A daemon whose delete succeeds but whose remote-list refresh fails. -/
def delOkListFailClient : RcloneClient :=
  { failClient with deleteRemoteResp := fun _ => .ok () }

/-- A freshly loaded session: two remotes, Remotes panel focused. -/
def appBase : App := { App.new with remotes := ["gdrive", "s3"] }

/-- Browsing `gdrive:/docs` with the directory entry selected. -/
def appBrowsing : App :=
  { appBase with
      current_remote := some "gdrive", current_path := "/docs",
      focused_panel := .Files,
      files := [NavigationItem.File fileDocs, NavigationItem.File fileTxt] }

/-- Same session with the non-directory entry selected. -/
def appBrowsingFile : App := { appBrowsing with files_selected := 1 }

/-- Browsing at the remote's root (empty path). -/
def appAtRoot : App := { appBrowsing with current_path := "" }

/-- A Confirm modal opened for deleting `gdrive`, choice still No. -/
def appConfirmNo : App :=
  { appBase with
      confirm_modal := some (ConfirmModal.new "Delete Remote" "Delete \x27gdrive\x27?"),
      pending_delete_remote := some "gdrive" }

/-- The same Confirm modal after toggling the choice to Yes. -/
def appConfirmYes : App :=
  { appConfirmNo with
      confirm_modal :=
        some ((ConfirmModal.new "Delete Remote" "Delete \x27gdrive\x27?").toggle) }

/-- A session whose remote list is empty (selection out of range). -/
def appNoRemotes : App := App.new

/-! ## Helper lemmas on `rfind` -/

/-- `rfindAux` finds nothing when the character does not occur. -/
theorem rfindAux_eq_none {c : Char} {l : List Char} (h : c ∉ l) (i : Nat) :
    rfindAux c l i = none := by
  induction l generalizing i with
  | nil => rfl
  | cons x xs ih =>
    simp only [List.mem_cons, not_or] at h
    have hxc : ¬ x = c := fun hx => h.1 hx.symm
    simp only [rfindAux, ih h.2, if_neg hxc]

/-- `rfindAux` on `pre ++ c :: suf` with no `c` in `suf` finds the marked
occurrence: index `i + pre.length`. -/
theorem rfindAux_append {c : Char} (pre : List Char) {suf : List Char}
    (h : c ∉ suf) (i : Nat) :
    rfindAux c (pre ++ c :: suf) i = some (i + pre.length) := by
  induction pre generalizing i with
  | nil => simp [rfindAux, rfindAux_eq_none h]
  | cons x xs ih =>
    simp only [List.cons_append, rfindAux, List.append_eq, ih (i + 1), List.length_cons]
    have harith : i + 1 + xs.length = i + (xs.length + 1) := by omega
    rw [harith]

/-- The index of the last slash in `pre ++ '/' :: suf`, when `suf` has no
slash, is `pre.length`. -/
theorem rfind_append {c : Char} (pre : List Char) {suf : List Char}
    (h : c ∉ suf) : rfind c (pre ++ c :: suf) = some pre.length := by
  simp [rfind, rfindAux_append pre h]

/-- `rfind` finds nothing when the character does not occur. -/
theorem rfind_eq_none {c : Char} {l : List Char} (h : c ∉ l) :
    rfind c l = none :=
  rfindAux_eq_none h 0

/-! ## Claim theorems -/

/-- C8: for every non-empty list and every in-range starting index,
`navigate_down` never advances the focused panel selection index past
`len - 1` and `navigate_up` never retreats it below 0 (clamped, no
wraparound), for both the Remotes and Files panels. -/
theorem navigate_clamped (app : App) :
    (app.focused_panel = Panel.Remotes → app.remotes ≠ [] →
      app.remotes_selected < app.remotes.length →
      ((App.navigate_down app).remotes_selected < app.remotes.length ∧
       (App.navigate_up app).remotes_selected ≤ app.remotes_selected ∧
       (app.remotes_selected = 0 → (App.navigate_up app).remotes_selected = 0))) ∧
    (app.focused_panel = Panel.Files → app.files ≠ [] →
      app.files_selected < app.files.length →
      ((App.navigate_down app).files_selected < app.files.length ∧
       (App.navigate_up app).files_selected ≤ app.files_selected ∧
       (app.files_selected = 0 → (App.navigate_up app).files_selected = 0))) := by
  constructor <;> intro hf hne hlt <;>
    simp only [App.navigate_down, App.navigate_up, hf] <;>
    refine ⟨?_, ?_, fun h0 => ?_⟩ <;> split <;> (try simp) <;> omega

/-- Claim C8 witness: concrete clamping at both ends of the remote list. -/
theorem navigate_clamped_witness :
    (App.navigate_down appBase).remotes_selected < appBase.remotes.length ∧
    (App.navigate_up appBase).remotes_selected = 0 :=
  ⟨((navigate_clamped appBase).1 rfl (by decide) (by decide)).1,
   ((navigate_clamped appBase).1 rfl (by decide) (by decide)).2.2 rfl⟩

/-- C9: every successful remote-list load resets `remotes_selected` to 0,
and every file-list load that returns without error (including the no-op
case where `current_remote` is none) resets `files_selected` to 0. -/
theorem load_resets_selection (b : RcloneClient) (app a : App) :
    (App.load_remotes b app = (a, none) → a.remotes_selected = 0) ∧
    (App.load_files b app = (a, none) → a.files_selected = 0) := by
  constructor
  · intro h
    unfold App.load_remotes at h
    cases hr : b.listRemotesResp with
    | ok rs => rw [hr] at h; cases h; rfl
    | error e => rw [hr] at h; simp at h
  · intro h
    unfold App.load_files at h
    cases hc : app.current_remote with
    | none => rw [hc] at h; cases h; rfl
    | some remote =>
      rw [hc] at h
      simp only [] at h
      cases hl : b.listFilesResp remote app.current_path with
      | ok items => rw [hl] at h; cases h; rfl
      | error e => rw [hl] at h; simp at h

/-- Claim C9 witness: a concrete successful remote load and a concrete
no-remote file load both land on selection 0. -/
theorem load_resets_selection_witness :
    ({ App.new with remotes := ["gdrive", "s3"], remotes_selected := 0 } :
      App).remotes_selected = 0 ∧
    ({ App.new with files_selected := 0 } : App).files_selected = 0 :=
  ⟨(load_resets_selection okClient App.new
      { App.new with remotes := ["gdrive", "s3"], remotes_selected := 0 }).1 rfl,
   (load_resets_selection okClient App.new
      { App.new with files_selected := 0 }).2 rfl⟩

/-- C10: when the remote selection index does not resolve to a remote
(empty list or out of range), the open-delete and open-edit keys are
complete no-ops for every daemon: the state is returned unchanged (so no
modal opens and no pending target is set) and no error arises. -/
theorem delete_edit_out_of_range_noop (b : RcloneClient) (app : App)
    (hcm : app.confirm_modal = none) (hcr : app.create_remote_modal = none)
    (hget : app.remotes[app.remotes_selected]? = none) :
    Handler.handle_key b app (.Char 'd') = (app, none) ∧
    Handler.handle_key b app (.Char 'e') = (app, none) := by
  constructor <;>
    · unfold Handler.handle_key
      simp only [hcm, hcr, Option.isSome_none, Bool.false_eq_true, if_false]
      cases hfp : app.focused_panel <;>
        simp [hfp, Handler.handle_delete_remote, Handler.handle_edit_remote, hget]

/-- Claim C10 witness: with an empty remote list, `d` and `e` change
nothing. -/
theorem delete_edit_out_of_range_witness :
    Handler.handle_key okClient appNoRemotes (.Char 'd') = (appNoRemotes, none) ∧
    Handler.handle_key okClient appNoRemotes (.Char 'e') = (appNoRemotes, none) :=
  delete_edit_out_of_range_noop okClient appNoRemotes rfl rfl rfl

/-- C6: pressing Enter in the Files panel (no modal open) on a selected
directory entry appends the entry name to `current_path` — `/name` from
the empty path, `path/name` otherwise — and re-fetches the file list for
the new path (on success the new listing replaces `files` with the
selection reset); pressing Enter on a non-directory entry changes
nothing. -/
theorem enter_files_spec (b : RcloneClient) (app : App)
    (hcm : app.confirm_modal = none) (hcr : app.create_remote_modal = none)
    (hf : app.focused_panel = Panel.Files) :
    (∀ item r items, app.files[app.files_selected]? = some item →
      item.is_dir = true → app.current_remote = some r →
      b.listFilesResp r (if app.current_path = "" then "/" ++ item.name
        else app.current_path ++ "/" ++ item.name) = Except.ok items →
      Handler.handle_key b app .Enter =
        ({ app with
            current_path := if app.current_path = "" then "/" ++ item.name
              else app.current_path ++ "/" ++ item.name,
            files := items.map NavigationItem.File,
            files_selected := 0 }, none)) ∧
    (∀ item, app.files[app.files_selected]? = some item →
      item.is_dir = false →
      Handler.handle_key b app .Enter = (app, none)) := by
  constructor
  · intro item r items hget hdir hrem hls
    unfold Handler.handle_key Handler.handle_enter App.load_files
    simp [hcm, hcr, hf, hget, hdir, hrem, hls]
  · intro item hget hdir
    unfold Handler.handle_key Handler.handle_enter
    simp [hcm, hcr, hf, hget, hdir]

/-- Claim C6 witness: entering the selected `docs` directory from
`gdrive:/docs` moves the path to `/docs/docs` and reloads; Enter on the
selected plain file changes nothing. -/
theorem enter_files_witness :
    Handler.handle_key okClient appBrowsing .Enter =
      ({ appBrowsing with
          current_path := "/docs/docs",
          files := [NavigationItem.File fileDocs, NavigationItem.File fileTxt],
          files_selected := 0 }, none) ∧
    Handler.handle_key okClient appBrowsingFile .Enter =
      (appBrowsingFile, none) := by
  constructor
  · have h := (enter_files_spec okClient appBrowsing rfl rfl rfl).1
      (NavigationItem.File fileDocs) "gdrive" [fileDocs, fileTxt]
      rfl rfl rfl rfl
    simpa using h
  · exact (enter_files_spec okClient appBrowsingFile rfl rfl rfl).2
      (NavigationItem.File fileTxt) rfl rfl

/-- C7: Backspace with the Files panel focused: a non-empty `current_path`
becomes the substring before its last `/` (or empty when no separator
exists) and a file-list re-fetch for that path is issued (the result is
exactly `load_files` at the truncated path); an empty `current_path`
clears `current_remote`, empties `files` and returns focus to Remotes;
Backspace does nothing when the Remotes panel is focused. -/
theorem backspace_spec (b : RcloneClient) (app : App)
    (hcm : app.confirm_modal = none) (hcr : app.create_remote_modal = none) :
    (∀ pre suf : List Char, app.focused_panel = Panel.Files → '/' ∉ suf →
      app.current_path.data = pre ++ '/' :: suf →
      Handler.handle_key b app .Backspace =
        App.load_files b { app with current_path := String.mk pre }) ∧
    (app.focused_panel = Panel.Files → app.current_path ≠ "" →
      '/' ∉ app.current_path.data →
      Handler.handle_key b app .Backspace =
        App.load_files b { app with current_path := "" }) ∧
    (app.focused_panel = Panel.Files → app.current_path = "" →
      Handler.handle_key b app .Backspace =
        ({ app with
            current_remote := none, focused_panel := Panel.Remotes,
            files := [] }, none)) ∧
    (app.focused_panel = Panel.Remotes →
      Handler.handle_key b app .Backspace = (app, none)) := by
  refine ⟨?_, ?_, ?_, ?_⟩
  · intro pre suf hf hsuf hdata
    have hne : ¬ app.current_path = "" := by
      intro h0
      rw [h0] at hdata
      exact List.cons_ne_nil '/' suf (List.append_eq_nil.mp hdata.symm).2
    unfold Handler.handle_key Handler.handle_backspace
    rw [hdata]
    simp [hcm, hcr, hf, hne, rfind_append pre hsuf, List.take_left]
  · intro hf hne hslash
    unfold Handler.handle_key Handler.handle_backspace
    simp [hcm, hcr, hf, hne, rfind_eq_none hslash]
  · intro hf hempty
    unfold Handler.handle_key Handler.handle_backspace
    simp [hcm, hcr, hf, hempty]
  · intro hf
    unfold Handler.handle_key Handler.handle_backspace
    simp [hcm, hcr, hf]

/-- Claim C7 witness: Backspace from `gdrive:/docs` truncates to the root
path and re-fetches; Backspace at the root leaves browsing; Backspace on
the Remotes panel does nothing. -/
theorem backspace_witness :
    Handler.handle_key okClient appBrowsing .Backspace =
      App.load_files okClient { appBrowsing with current_path := String.mk [] } ∧
    Handler.handle_key okClient appAtRoot .Backspace =
      ({ appAtRoot with
          current_remote := none, focused_panel := Panel.Remotes,
          files := [] }, none) ∧
    Handler.handle_key okClient appBase .Backspace = (appBase, none) :=
  ⟨(backspace_spec okClient appBrowsing rfl rfl).1 [] "docs".data rfl
      (by decide) rfl,
   (backspace_spec okClient appAtRoot rfl rfl).2.2.1 rfl rfl,
   (backspace_spec okClient appBase rfl rfl).2.2.2 rfl⟩

/-- C1 counterexample: with a failing daemon, pressing Enter on a selected
remote leaves `current_remote` changed to the attempted destination (and
the error propagated), so the navigation state is not exactly what it was
before the transition. -/
theorem failure_mutates_current_remote :
    (Handler.handle_key failClient appBase .Enter).1.current_remote ≠
      appBase.current_remote ∧
    (Handler.handle_key failClient appBase .Enter).2 =
      some (LazyFileError.RcloneApi "boom") := by decide

/-- C1 (amended): when the backend call of a navigation transition fails,
`remotes`, `remotes_selected`, `files` and `files_selected` are unchanged,
but `current_remote` and `current_path` have already been set to the
attempted destination before the failing call and keep those new values:
entering a remote leaves `current_remote` at the selection with an empty
`current_path`; entering a directory and going to the parent leave
`current_path` at the new path. -/
theorem failure_partial_navigation (b : RcloneClient) (app : App)
    (e : LazyFileError)
    (hcm : app.confirm_modal = none) (hcr : app.create_remote_modal = none) :
    (∀ remote, app.focused_panel = Panel.Remotes →
      app.remotes[app.remotes_selected]? = some remote →
      b.listFilesResp remote "" = Except.error e →
      Handler.handle_key b app .Enter =
        ({ app with current_remote := some remote, current_path := "" },
          some e)) ∧
    (∀ item r, app.focused_panel = Panel.Files →
      app.files[app.files_selected]? = some item → item.is_dir = true →
      app.current_remote = some r →
      b.listFilesResp r (if app.current_path = "" then "/" ++ item.name
        else app.current_path ++ "/" ++ item.name) = Except.error e →
      Handler.handle_key b app .Enter =
        ({ app with current_path := if app.current_path = "" then
            "/" ++ item.name else app.current_path ++ "/" ++ item.name },
          some e)) ∧
    (∀ pre suf r, app.focused_panel = Panel.Files → '/' ∉ suf →
      app.current_path.data = pre ++ '/' :: suf →
      app.current_remote = some r →
      b.listFilesResp r (String.mk pre) = Except.error e →
      Handler.handle_key b app .Backspace =
        ({ app with current_path := String.mk pre }, some e)) := by
  refine ⟨?_, ?_, ?_⟩
  · intro remote hf hget hls
    unfold Handler.handle_key Handler.handle_enter App.load_files
    simp [hcm, hcr, hf, hget, hls]
  · intro item r hf hget hdir hrem hls
    unfold Handler.handle_key Handler.handle_enter App.load_files
    simp [hcm, hcr, hf, hget, hdir, hrem, hls]
  · intro pre suf r hf hsuf hdata hrem hls
    have hne : ¬ app.current_path = "" := by
      intro h0
      rw [h0] at hdata
      exact List.cons_ne_nil '/' suf (List.append_eq_nil.mp hdata.symm).2
    unfold Handler.handle_key Handler.handle_backspace App.load_files
    rw [hdata]
    simp [hcm, hcr, hf, hne, hrem, hls, rfind_append pre hsuf, List.take_left]

/-- Claim C1 witness: the three failing transitions at concrete states. -/
theorem failure_partial_navigation_witness :
    Handler.handle_key failClient appBase .Enter =
      ({ appBase with current_remote := some "gdrive", current_path := "" },
        some (LazyFileError.RcloneApi "boom")) ∧
    Handler.handle_key failClient appBrowsing .Enter =
      ({ appBrowsing with current_path := "/docs/docs" },
        some (LazyFileError.RcloneApi "boom")) ∧
    Handler.handle_key failClient appBrowsing .Backspace =
      ({ appBrowsing with current_path := String.mk [] },
        some (LazyFileError.RcloneApi "boom")) := by
  refine ⟨?_, ?_, ?_⟩
  · exact (failure_partial_navigation failClient appBase _ rfl rfl).1
      "gdrive" rfl rfl rfl
  · have h := (failure_partial_navigation failClient appBrowsing _ rfl rfl).2.1
      (NavigationItem.File fileDocs) "gdrive" rfl rfl rfl rfl rfl
    simpa using h
  · exact (failure_partial_navigation failClient appBrowsing _ rfl rfl).2.2
      [] "docs".data "gdrive" rfl (by decide) rfl rfl rfl

/-- C2 counterexample: Enter on the Confirm modal with choice No closes
the modal and issues no call, but `pending_delete_remote` keeps its value
instead of becoming none. -/
theorem enter_no_keeps_pending :
    Handler.handle_key okClient appConfirmNo .Enter =
      ({ appConfirmNo with confirm_modal := none }, none) ∧
    ({ appConfirmNo with confirm_modal := none } : App).pending_delete_remote =
      some "gdrive" := by decide

/-- C2 (amended): `pending_delete_remote` is cleared when the Confirm
modal closes via Escape, and on Enter with choice Yes (the target is taken
before the delete call, whatever its outcome); on Enter with choice No the
modal closes and, for every daemon, the state change is exactly closing
the modal — no delete call is issued and `pending_delete_remote` retains
its previous value. -/
theorem confirm_close_pending_spec (b : RcloneClient) (app : App)
    (m : ConfirmModal) (hm : app.confirm_modal = some m) :
    (Handler.handle_key b app .Esc =
      ({ app with confirm_modal := none, pending_delete_remote := none },
        none)) ∧
    (m.is_confirmed = true →
      (Handler.handle_key b app .Enter).1.pending_delete_remote = none) ∧
    (m.is_confirmed = false →
      Handler.handle_key b app .Enter =
        ({ app with confirm_modal := none }, none)) := by
  refine ⟨?_, ?_, ?_⟩
  · unfold Handler.handle_key Handler.handle_confirm_key
    simp [hm]
  · intro hy
    unfold Handler.handle_key Handler.handle_confirm_key App.load_remotes
    simp only [hm, Option.isSome_some, if_true, hy]
    cases hp : app.pending_delete_remote with
    | none => simp [hp]
    | some r =>
      simp only [hp]
      cases hd : b.deleteRemoteResp r with
      | error e => simp
      | ok u =>
        cases hr : b.listRemotesResp with
        | ok rs => simp
        | error e => simp
  · intro hn
    unfold Handler.handle_key Handler.handle_confirm_key
    simp [hm, hn]

/-- Claim C2 witness: Escape clears the pending target; Enter with Yes
ends with no pending target; Enter with No closes the modal only. -/
theorem confirm_close_pending_witness :
    Handler.handle_key okClient appConfirmNo .Esc =
      ({ appConfirmNo with
          confirm_modal := none, pending_delete_remote := none }, none) ∧
    (Handler.handle_key okClient appConfirmYes .Enter).1.pending_delete_remote =
      none ∧
    Handler.handle_key okClient appConfirmNo .Enter =
      ({ appConfirmNo with confirm_modal := none }, none) :=
  ⟨(confirm_close_pending_spec okClient appConfirmNo _ rfl).1,
   (confirm_close_pending_spec okClient appConfirmYes _ rfl).2.1 rfl,
   (confirm_close_pending_spec okClient appConfirmNo _ rfl).2.2 rfl⟩

/-- C3 counterexample: Enter with choice Yes and a pending target, against
a daemon whose delete fails: the error propagates before the modal is
closed, so the Confirm modal is still open afterwards — the modal is not
closed regardless of call outcome. -/
theorem failed_delete_keeps_modal_open :
    (Handler.handle_key failClient appConfirmYes .Enter).1.confirm_modal =
      some ((ConfirmModal.new "Delete Remote" "Delete \x27gdrive\x27?").toggle) ∧
    (Handler.handle_key failClient appConfirmYes .Enter).2 =
      some (LazyFileError.RcloneApi "boom") := by decide

/-- C3 (amended): Enter with choice Yes and a pending target issues the
delete call and then the remote-list refresh, but the modal is closed only
when both calls succeed; on either failure the error propagates with the
modal still open (and the pending target already cleared). -/
theorem confirm_yes_delete_spec (b : RcloneClient) (app : App)
    (m : ConfirmModal) (r : String)
    (hm : app.confirm_modal = some m) (hy : m.is_confirmed = true)
    (hp : app.pending_delete_remote = some r) :
    (∀ e, b.deleteRemoteResp r = Except.error e →
      Handler.handle_key b app .Enter =
        ({ app with pending_delete_remote := none }, some e)) ∧
    (∀ e, b.deleteRemoteResp r = Except.ok () →
      b.listRemotesResp = Except.error e →
      Handler.handle_key b app .Enter =
        ({ app with pending_delete_remote := none }, some e)) ∧
    (∀ rs, b.deleteRemoteResp r = Except.ok () →
      b.listRemotesResp = Except.ok rs →
      Handler.handle_key b app .Enter =
        ({ app with
            pending_delete_remote := none, remotes := rs,
            remotes_selected := 0, confirm_modal := none }, none)) := by
  refine ⟨?_, ?_, ?_⟩
  · intro e hd
    unfold Handler.handle_key Handler.handle_confirm_key
    simp [hm, hy, hp, hd]
  · intro e hd hr
    unfold Handler.handle_key Handler.handle_confirm_key App.load_remotes
    simp [hm, hy, hp, hd, hr]
  · intro rs hd hr
    unfold Handler.handle_key Handler.handle_confirm_key App.load_remotes
    simp [hm, hy, hp, hd, hr]

/-- Claim C3 witness: the failed-delete, failed-refresh and all-success
outcomes at a concrete confirmed deletion. -/
theorem confirm_yes_delete_witness :
    Handler.handle_key failClient appConfirmYes .Enter =
      ({ appConfirmYes with pending_delete_remote := none },
        some (LazyFileError.RcloneApi "boom")) ∧
    Handler.handle_key delOkListFailClient appConfirmYes .Enter =
      ({ appConfirmYes with pending_delete_remote := none },
        some (LazyFileError.RcloneApi "boom")) ∧
    Handler.handle_key okClient appConfirmYes .Enter =
      ({ appConfirmYes with
          pending_delete_remote := none, remotes := ["gdrive", "s3"],
          remotes_selected := 0, confirm_modal := none }, none) :=
  ⟨(confirm_yes_delete_spec failClient appConfirmYes _ "gdrive"
      rfl rfl rfl).1 (LazyFileError.RcloneApi "boom") rfl,
   (confirm_yes_delete_spec delOkListFailClient appConfirmYes _ "gdrive"
      rfl rfl rfl).2.1 (LazyFileError.RcloneApi "boom") rfl rfl,
   (confirm_yes_delete_spec okClient appConfirmYes _ "gdrive"
      rfl rfl rfl).2.2 ["gdrive", "s3"] rfl rfl⟩

/-- C4 counterexample: one failed file listing (Enter on a selected remote
against a failing daemon) makes `run_app` return with the propagated
error — the loop stops and the process terminates — even though `running`
is still true, and the following quit key is never processed. -/
theorem single_failure_stops_loop :
    run_app failClient appBase [KeyCode.Enter, KeyCode.Char 'q'] =
      ({ appBase with current_remote := some "gdrive", current_path := "" },
        some (LazyFileError.RcloneApi "boom")) ∧
    ({ appBase with current_remote := some "gdrive", current_path := "" } :
      App).running = true := by decide

/-- C4 (amended): an error propagated out of `Handler::handle_key` is
returned by `run_app` immediately (the `?` in the loop), terminating the
event loop with the remaining input unprocessed, regardless of the value
of `running`. -/
theorem run_app_error_terminates (b : RcloneClient) (app a : App)
    (k : KeyCode) (ks : List KeyCode) (e : LazyFileError)
    (hr : app.running = true)
    (h : Handler.handle_key b app k = (a, some e)) :
    run_app b app (k :: ks) = (a, some e) := by
  unfold run_app
  simp [hr, h]

/-- Claim C4 witness: the loop stops after a single failing Enter. -/
theorem run_app_error_terminates_witness :
    run_app failClient appBase [KeyCode.Enter] =
      ({ appBase with current_remote := some "gdrive", current_path := "" },
        some (LazyFileError.RcloneApi "boom")) :=
  run_app_error_terminates failClient appBase
    { appBase with current_remote := some "gdrive", current_path := "" }
    KeyCode.Enter [] (LazyFileError.RcloneApi "boom") rfl (by decide)

/-- C5 counterexample: a syntactically valid response whose `list` field
has the wrong type deserializes to `Ok(Vec::new())` — an empty-list
success, not an error — and a syntactically malformed body yields a
`Json`-kind error, which is not the `RcloneApi` kind of a daemon-reported
failure; both contradict the claim that such inputs yield an `ApiError`
of the daemon-failure kind. -/
theorem type_mismatch_not_api_error :
    list_files_parse true "200 OK" (Except.ok (Json.obj [("list", Json.num 5)])) =
      Except.ok [] ∧
    list_files_parse true "200 OK" (Except.error "expected value") =
      Except.error (LazyFileError.Json "expected value") ∧
    (LazyFileError.Json "expected value").isRcloneApi = false ∧
    (LazyFileError.RcloneApi "Failed to list files: 500").isRcloneApi =
      true := ⟨rfl, rfl, rfl, rfl⟩

/-- C5 (amended): in the list-files response handling, a well-formed
response with the `list` field absent is an empty-list success; a
non-success status is an `RcloneApi`-kind error; a syntactically malformed
body is a `Json`-kind error (a different kind from a daemon-reported
failure); and a syntactically valid body that fails to deserialize as a
list-files response (e.g. a present `list` field of the wrong type) is an
empty-list success, not an error. -/
theorem list_files_parse_spec (st msg : String) (j : Json)
    (fields : List (String × Json)) :
    (fields.lookup "list" = none →
      list_files_parse true st (Except.ok (Json.obj fields)) = Except.ok []) ∧
    (list_files_parse true st (Except.error msg) =
        Except.error (LazyFileError.Json msg) ∧
      (LazyFileError.Json msg).isRcloneApi = false) ∧
    (list_files_parse false st (Except.ok j) =
        Except.error (LazyFileError.RcloneApi ("Failed to list files: " ++ st)) ∧
      (LazyFileError.RcloneApi ("Failed to list files: " ++ st)).isRcloneApi =
        true) ∧
    (decodeListFilesResponse j = none →
      list_files_parse true st (Except.ok j) = Except.ok []) := by
  refine ⟨?_, ⟨?_, ?_⟩, ⟨?_, ?_⟩, ?_⟩
  · intro habsent
    unfold list_files_parse decodeListFilesResponse
    simp [habsent]
  · unfold list_files_parse
    simp
  · rfl
  · unfold list_files_parse
    simp
  · rfl
  · intro hdec
    unfold list_files_parse
    simp [hdec]

/-- Claim C5 witness: the absent-field, malformed, daemon-failure and
type-mismatch cases at concrete responses. -/
theorem list_files_parse_witness :
    list_files_parse true "200 OK" (Except.ok (Json.obj [])) = Except.ok [] ∧
    list_files_parse true "200 OK" (Except.error "eof") =
      Except.error (LazyFileError.Json "eof") ∧
    list_files_parse false "500" (Except.ok Json.null) =
      Except.error (LazyFileError.RcloneApi ("Failed to list files: " ++ "500")) ∧
    list_files_parse true "200 OK" (Except.ok (Json.str "nope")) =
      Except.ok [] :=
  ⟨(list_files_parse_spec "200 OK" "eof" Json.null []).1 rfl,
   (list_files_parse_spec "200 OK" "eof" Json.null []).2.1.1,
   (list_files_parse_spec "500" "eof" Json.null []).2.2.1.1,
   (list_files_parse_spec "200 OK" "eof" (Json.str "nope") []).2.2.2 rfl⟩

end LazyFile
